import Mathlib

/-!
Verification of the component deployment reconciliation core of the tron
platform API.

The definitions below are a shallow embedding of the Python source under
`src/api/app`:

* `ensure_private_exposure_settings`, `deploy_to_kubernetes`,
  `delete_from_kubernetes_safe`, `delete_component`,
  `ensure_cluster_instance`, `get_or_create_cluster_instance`,
  `update_component_enabled_field`, `handle_enabled_change` come from
  `app/shared/core/application_component_helpers.py`;
* the webapp create/update pipeline comes from
  `app/webapps/core/webapp_service.py`, `app/webapps/core/webapp_validators.py`
  and the pydantic validators of `app/webapps/api/webapp_dto.py`;
* the worker/cron create/update pipeline comes from
  `app/workers/core/worker_service.py` and `app/cron/core/cron_service.py`
  (the two are line-for-line identical up to naming, so a single embedding
  stands for both);
* `sync_instance` comes from `app/instances/core/instance_service.py`.

The relational store is modelled as a pair of `Store` values: the `committed`
snapshot (what the database holds durably) and the `pending` state of the
SQLAlchemy session; `commit` promotes pending to committed, `rollback`
discards pending.  Remote gateway calls are modelled as function parameters
returning `Except String _`, exactly as the Python code treats any raised
exception from the kubernetes client uniformly.
-/

namespace Tron

/-- An exposure sub-document of a component settings document: the
`exposure` dict with keys `type`, `port` and optionally `visibility`
(the code reads a missing `visibility` key through `.get`, hence the
`Option`). -/
structure ExposureDoc where
  type : String
  port : Nat
  visibility : Option String
deriving DecidableEq, Repr

/-- A component settings document (the JSON `settings` column): an optional
`exposure` sub-object plus the remaining keys, which the reconciliation
core treats as opaque key/value data. -/
structure SettingsDoc where
  exposure : Option ExposureDoc
  fields : List (String × String)
deriving DecidableEq, Repr

/-- The `WebappType` enum of `application_component_model.py`. -/
inductive ComponentType
  | webapp
  | worker
  | cron
deriving DecidableEq, Repr

/-- An `ApplicationComponent` row: the fields the reconciliation core reads
and writes (`id`, `name`, `type`, `settings`, `url`, `enabled`). -/
structure Component where
  id : Nat
  name : String
  type : ComponentType
  settings : Option SettingsDoc
  url : Option String
  enabled : Bool
deriving DecidableEq, Repr

/-- A `ClusterInstance` row (`cluster_instance_model.py`): the placement
record binding one component to one cluster. -/
structure Placement where
  uuid : Nat
  cluster_id : Nat
  application_component_id : Nat
deriving DecidableEq, Repr

/-- The tables the reconciliation core touches. -/
structure Store where
  components : List Component
  placements : List Placement
deriving DecidableEq, Repr

/-- A database session: the durably `committed` snapshot plus the `pending`
state of the session.  `commit` and `rollback` mirror SQLAlchemy
`db.commit()` / `db.rollback()`. -/
structure DB where
  committed : Store
  pending : Store
deriving DecidableEq, Repr

/-- `db.commit()`: pending changes become durable. -/
def DB.commit (db : DB) : DB := ⟨db.pending, db.pending⟩

/-- `db.rollback()`: pending changes are discarded. -/
def DB.rollback (db : DB) : DB := ⟨db.committed, db.committed⟩

/-- Python `str.capitalize()` as used in `delete_component`. -/
def str_capitalize (s : String) : String :=
  (s.take 1).toUpper ++ (s.drop 1).toLower

/-- Python `not s.strip()`: the string holds nothing but whitespace. -/
def py_is_blank (s : String) : Bool :=
  s.data.all (fun ch => ch.isWhitespace)

/-- Python `" " in s`. -/
def py_contains_space (s : String) : Bool :=
  s.data.any (fun ch => ch = ' ')

/-- `deploy_to_kubernetes` (application_component_helpers.py lines 98-131):
run the upsert against the cluster; on success commit the session, on any
exception roll it back and re-raise a deploy failure naming the cluster and
the underlying error.  The upsert function receives the pending state (it
renders manifests from it) and may also mutate it. -/
def deploy_to_kubernetes (upsert_to_k8s_func : Store → Except String Store)
    (db : DB) (cluster_name component_type : String) : DB × Option String :=
  match upsert_to_k8s_func db.pending with
  | Except.ok s => (DB.commit { db with pending := s }, none)
  | Except.error e =>
      (DB.rollback db,
        some ("Failed to deploy " ++ component_type ++ " to Kubernetes cluster "
          ++ cluster_name ++ ": " ++ e))

/-- `delete_from_kubernetes_safe` (application_component_helpers.py lines
134-162): issue the remote delete; whether it succeeds or raises, commit the
session — a failure is only recorded (the printed message), never
propagated. -/
def delete_from_kubernetes_safe (delete_from_k8s_func : Store → Except String Unit)
    (db : DB) (component_name component_type : String) : DB × List String :=
  match delete_from_k8s_func db.pending with
  | Except.ok _ => (DB.commit db, [])
  | Except.error e =>
      (DB.commit db,
        ["Error removing " ++ component_type ++ " " ++ component_name
          ++ " from Kubernetes: " ++ e])

/-- `find_cluster_instance_by_component_id` of the repositories: first
placement row whose `application_component_id` matches. -/
def find_cluster_instance_by_component_id (ps : List Placement)
    (component_id : Nat) : Option Placement :=
  ps.find? (fun p => p.application_component_id == component_id)

/-- `ensure_cluster_instance` (application_component_helpers.py lines 19-45):
return the existing placement record for the component if any, otherwise
create one binding the component to the given cluster. -/
def ensure_cluster_instance (ps : List Placement)
    (component_id cluster_id fresh_uuid : Nat) : List Placement × Placement :=
  match find_cluster_instance_by_component_id ps component_id with
  | some existing => (ps, existing)
  | none =>
      let ci : Placement := ⟨fresh_uuid, cluster_id, component_id⟩
      (ps ++ [ci], ci)

/-- `get_or_create_cluster_instance` (application_component_helpers.py lines
48-70): look the record up; when absent, pick a cluster with the placement
selector (here the already-selected `selected_cluster_id`) and call
`ensure_cluster_instance`. -/
def get_or_create_cluster_instance (ps : List Placement)
    (component_id selected_cluster_id fresh_uuid : Nat) :
    List Placement × Placement :=
  match find_cluster_instance_by_component_id ps component_id with
  | some existing => (ps, existing)
  | none => ensure_cluster_instance ps component_id selected_cluster_id fresh_uuid

/-- One placement-touching operation of the core: every create/update/sync
path reaches the placement table only through `ensure_cluster_instance` or
`get_or_create_cluster_instance`. -/
inductive PlacementOp
  | ensure (component_id cluster_id fresh_uuid : Nat)
  | getOrCreate (component_id cluster_id fresh_uuid : Nat)
deriving DecidableEq, Repr

/-- Effect of a placement operation on the placements table. -/
def applyPlacementOp (ps : List Placement) : PlacementOp → List Placement
  | PlacementOp.ensure cid cl u => (ensure_cluster_instance ps cid cl u).1
  | PlacementOp.getOrCreate cid cl u => (get_or_create_cluster_instance ps cid cl u).1

/-- Effect of a sequence of placement operations. -/
def applyPlacementOps (ps : List Placement) (ops : List PlacementOp) : List Placement :=
  ops.foldl applyPlacementOp ps

/-- At most one placement record exists per component. -/
def placement_unique (ps : List Placement) : Prop :=
  ∀ cid, ps.countP (fun p => p.application_component_id == cid) ≤ 1

/-- `delete_component` (application_component_helpers.py lines 187-214):
look up the placement record; when present, run the safe kubernetes delete
and remove the record; always remove the component row last and report
success.  Returns the final session, the response detail and the recorded
(not raised) kubernetes errors. -/
def delete_component (db : DB) (component : Component)
    (delete_from_k8s_func : Store → Except String Unit) (component_type : String) :
    DB × String × List String :=
  match find_cluster_instance_by_component_id db.pending.placements component.id with
  | some ci =>
      let r1 := delete_from_kubernetes_safe delete_from_k8s_func db
        component.name component_type
      let db2 : DB := { r1.1 with pending :=
        { r1.1.pending with placements :=
            r1.1.pending.placements.filter (fun p => p.uuid != ci.uuid) } }
      let db3 : DB := DB.commit { db2 with pending :=
        { db2.pending with components :=
            db2.pending.components.filter (fun k => k.id != component.id) } }
      (db3, str_capitalize component_type ++ " deleted successfully", r1.2)
  | none =>
      let db3 : DB := DB.commit { db with pending :=
        { db.pending with components :=
            db.pending.components.filter (fun k => k.id != component.id) } }
      (db3, str_capitalize component_type ++ " deleted successfully", [])

/-- Python `settings_dict.get("exposure", ...).get("type", "http")`. -/
def exposure_type_of (s : SettingsDoc) : String :=
  match s.exposure with
  | some e => e.type
  | none => "http"

/-- Python `settings_dict.get("exposure", ...).get("visibility", "cluster")`. -/
def exposure_visibility_of (s : SettingsDoc) : String :=
  match s.exposure with
  | some e => e.visibility.getD "cluster"
  | none => "cluster"

/-- Python `webapp.settings or ...`: a NULL settings column reads as the
empty document. -/
def settings_or_empty (s : Option SettingsDoc) : SettingsDoc :=
  s.getD ⟨none, []⟩

/-- Python truthiness of the `url` value (`not webapp.url` is true for both
`None` and the empty string). -/
def url_truthy : Option String → Bool
  | none => false
  | some s => !(s == "")

/-- `ensure_private_exposure_settings` (application_component_helpers.py
lines 165-184): synthesize a default private exposure when the document has
none; force `visibility` to private when the exposure lacks it; otherwise
leave the document untouched. -/
def ensure_private_exposure_settings (settings_dict : SettingsDoc) : SettingsDoc :=
  match settings_dict.exposure with
  | none =>
      { settings_dict with exposure := some ⟨"http", 80, some "private"⟩ }
  | some e =>
      match e.visibility with
      | none =>
          { settings_dict with exposure := some { e with visibility := some "private" } }
      | some _ => settings_dict

/-- The change-info dict returned by `update_component_enabled_field` and
consumed by `handle_enabled_change`. -/
structure EnabledChanged where
  changed : Bool
  was_enabled : Bool
  will_be_enabled : Bool
deriving DecidableEq, Repr

/-- `update_component_enabled_field` (application_component_helpers.py lines
217-246): apply an optional new `enabled` value and report whether it
changed (the accompanying `repository.update` commit is applied by the
caller embeddings). -/
def update_component_enabled_field (component : Component) (enabled : Option Bool) :
    Component × EnabledChanged :=
  match enabled with
  | none => (component, ⟨false, component.enabled, component.enabled⟩)
  | some e => ({ component with enabled := e }, ⟨e != component.enabled, component.enabled, e⟩)

/-- A remote gateway call issued by an operation. -/
inductive RemoteCall
  | applyCall
  | deleteCall
deriving DecidableEq, Repr

/-- `handle_enabled_change` (application_component_helpers.py lines 73-96):
enabled went true→false ⇒ safe delete; false→true ⇒ deploy; otherwise do
nothing.  Returns the session, the deploy failure (if the deploy path
raised) and the remote calls issued. -/
def handle_enabled_change (ec : EnabledChanged)
    (delete_from_k8s_func : Store → Except String Unit)
    (upsert_to_k8s_func : Store → Except String Store)
    (db : DB) (component_name cluster_name component_type : String) :
    DB × Option String × List RemoteCall :=
  if ec.was_enabled && !ec.will_be_enabled then
    let r := delete_from_kubernetes_safe delete_from_k8s_func db component_name component_type
    (r.1, none, [RemoteCall.deleteCall])
  else if !ec.was_enabled && ec.will_be_enabled then
    let r := deploy_to_kubernetes upsert_to_k8s_func db cluster_name component_type
    (r.1, r.2, [RemoteCall.applyCall])
  else (db, none, [])

/-- SQLAlchemy identity-map update: the mutated component object replaces
the row with the same id. -/
def replace_component (cs : List Component) (w : Component) : List Component :=
  cs.map (fun c => if c.id == w.id then w else c)

/-! ### Worker / cron lifecycle (worker_service.py, cron_service.py) -/

/-- A `WorkerUpdate` / `CronUpdate` DTO: optional `enabled`, optional
`settings`; these DTOs carry no `url` field and their settings schema has no
exposure sub-object of its own (the unit tests build `WorkerSettings` from
cpu/memory/metrics/autoscaling only), so `settings` here is the dumped
document. -/
structure WorkerUpdateDto where
  enabled : Option Bool
  settings : Option SettingsDoc
deriving DecidableEq, Repr

/-- `WorkerService._update_worker_fields` (worker_service.py lines 134-146):
apply the optional enabled flag via `update_component_enabled_field`, then
overwrite `settings` with the dumped DTO settings when present.  No exposure
normalization happens here. -/
def update_worker_fields (worker : Component) (dto : WorkerUpdateDto) :
    Component × EnabledChanged :=
  let r := update_component_enabled_field worker dto.enabled
  let w2 :=
    match dto.settings with
    | some s => { r.1 with settings := some s }
    | none => r.1
  (w2, r.2)

/-- Errors of the lifecycle pipelines (the distinct exception classes of the
services and validators). -/
inductive WebappErr
  | valueError (msg : String)
  | invalidExposureType (msg : String)
  | invalidVisibility (msg : String)
  | invalidURL (msg : String)
  | deployFailure (msg : String)
deriving DecidableEq, Repr

/-- `WorkerService.create_worker` / `CronService.create_cron`
(worker_service.py lines 46-61): validate the name, normalize the settings
through `ensure_private_exposure_settings`, persist the row (commit), ensure
a placement record, deploy.  Cluster selection is represented by the
pre-selected `cluster_id`/`cluster_name`. -/
def create_worker (name : String) (enabled : Bool) (dto_settings : SettingsDoc)
    (cluster_name : String) (cluster_id next_id fresh_uuid : Nat)
    (upsert_to_k8s_func : Store → Except String Store) (db : DB)
    (component_type : ComponentType) (component_type_str : String) :
    DB × Except WebappErr Component :=
  if name == "" || py_is_blank name then
    (db, Except.error (WebappErr.valueError "name is required and cannot be empty"))
  else if py_contains_space name then
    (db, Except.error (WebappErr.valueError "Component name cannot contain spaces"))
  else
    let settings_dict := ensure_private_exposure_settings dto_settings
    let w : Component := ⟨next_id, name, component_type, some settings_dict, none, enabled⟩
    let db1 := DB.commit { db with pending :=
      { db.pending with components := db.pending.components ++ [w] } }
    let r := ensure_cluster_instance db1.pending.placements w.id cluster_id fresh_uuid
    let db2 := { db1 with pending := { db1.pending with placements := r.1 } }
    match deploy_to_kubernetes upsert_to_k8s_func db2 cluster_name component_type_str with
    | (db3, none) => (db3, Except.ok w)
    | (db3, some m) => (db3, Except.error (WebappErr.deployFailure m))

/-- `WorkerService.update_worker` / `CronService.update_cron`
(worker_service.py lines 63-89): compute `has_changes` from field presence,
apply the field updates (each `repository.update` commits), get-or-create
the placement, then branch on the enabled change exactly as the source
does.  Returns the session, the result and the remote calls issued. -/
def update_worker (worker : Component) (dto : WorkerUpdateDto)
    (cluster_name : String) (cluster_id fresh_uuid : Nat)
    (upsert_to_k8s_func : Store → Except String Store)
    (delete_from_k8s_func : Store → Except String Unit) (db : DB) :
    DB × Except WebappErr Component × List RemoteCall :=
  let has_changes := dto.settings.isSome || dto.enabled.isSome
  let r := update_worker_fields worker dto
  let worker2 := r.1
  let ec := r.2
  let db1 := DB.commit { db with pending :=
    { db.pending with components := replace_component db.pending.components worker2 } }
  let pr := get_or_create_cluster_instance db1.pending.placements worker2.id cluster_id fresh_uuid
  let db2 := { db1 with pending := { db1.pending with placements := pr.1 } }
  if ec.changed then
    let h := handle_enabled_change ec delete_from_k8s_func upsert_to_k8s_func db2
      worker2.name cluster_name "worker"
    match h.2.1 with
    | none => (h.1, Except.ok worker2, h.2.2)
    | some m => (h.1, Except.error (WebappErr.deployFailure m), h.2.2)
  else if worker2.enabled && has_changes then
    match deploy_to_kubernetes upsert_to_k8s_func db2 cluster_name "worker" with
    | (db3, none) => (db3, Except.ok worker2, [RemoteCall.applyCall])
    | (db3, some m) => (db3, Except.error (WebappErr.deployFailure m), [RemoteCall.applyCall])
  else (db2, Except.ok worker2, [])

/-! ### Webapp lifecycle (webapp_service.py, webapp_validators.py,
webapp_dto.py) -/

/-- The pydantic `WebappExposure`: `type` and `port` are required, and
`visibility` is a required `VisibilityType` enum value. -/
structure WebappExposureDto where
  type : String
  port : Nat
  visibility : String
deriving DecidableEq, Repr

/-- Membership in the `VisibilityType` enum. -/
def visibility_enum_ok (v : String) : Bool :=
  v == "public" || v == "private" || v == "cluster"

/-- The pydantic `WebappSettings`: after the `migrate_exposure` validator an
exposure object is always present; the remaining keys are opaque here. -/
structure WebappSettingsDto where
  exposure : WebappExposureDto
  fields : List (String × String)
deriving DecidableEq, Repr

/-- `WebappSettings.model_dump()`: the settings document with the exposure
sub-object present and its visibility set. -/
def WebappSettingsDto.model_dump (s : WebappSettingsDto) : SettingsDoc :=
  ⟨some ⟨s.exposure.type, s.exposure.port, some s.exposure.visibility⟩, s.fields⟩

/-- The pydantic `WebappCreate` DTO. -/
structure WebappCreateDto where
  name : String
  url : Option String
  enabled : Bool
  settings : WebappSettingsDto
deriving DecidableEq, Repr

/-- The pydantic `WebappUpdate` DTO: every field optional. -/
structure WebappUpdateDto where
  url : Option String
  enabled : Option Bool
  settings : Option WebappSettingsDto
deriving DecidableEq, Repr

/-- The pydantic validators of `WebappCreate` (webapp_dto.py): the name
contains no space, the visibility is an enum member, a URL is present
exactly when exposure is http with non-cluster visibility (`validate_url`
raises in both mismatched directions). -/
def webapp_create_dto_valid (dto : WebappCreateDto) : Bool :=
  !(py_contains_space dto.name) &&
  visibility_enum_ok dto.settings.exposure.visibility &&
  (let et := dto.settings.exposure.type
   let ev := dto.settings.exposure.visibility
   !(et == "http" && ev != "cluster" && !url_truthy dto.url) &&
   !((et != "http" || ev == "cluster") && url_truthy dto.url))

/-- The pydantic validator of `WebappUpdate` (webapp_dto.py): when settings
are supplied, a URL may not accompany a non-http exposure or cluster
visibility (`self.url is not None` — presence, not truthiness). -/
def webapp_update_dto_valid (dto : WebappUpdateDto) : Bool :=
  match dto.settings with
  | none => true
  | some sd =>
      visibility_enum_ok sd.exposure.visibility &&
      !((sd.exposure.type != "http" || sd.exposure.visibility == "cluster")
          && dto.url.isSome)

/-- `validate_webapp_create_dto` (webapp_validators.py lines 38-50). -/
def validate_webapp_create_dto (dto : WebappCreateDto) : Except WebappErr Unit :=
  if dto.name == "" || py_is_blank dto.name then
    Except.error (WebappErr.valueError "Webapp name is required and cannot be empty")
  else if py_contains_space dto.name then
    Except.error (WebappErr.valueError "Component name cannot contain spaces")
  else Except.ok ()

/-- The capability surface of a cluster as the gateway reports it at call
time: whether the Gateway API group is served and which of its resources
exist. -/
structure ClusterCaps where
  gateway_api_available : Bool
  gateway_resources : List String
deriving DecidableEq, Repr

/-- The `type_to_resource` map of `validate_exposure_type_for_cluster`. -/
def required_gateway_resource (exposure_type : String) : Option String :=
  if exposure_type == "http" then some "HTTPRoute"
  else if exposure_type == "tcp" then some "TCPRoute"
  else if exposure_type == "udp" then some "UDPRoute"
  else none

/-- `validate_exposure_type_for_cluster` (webapp_validators.py lines 80-110):
a Gateway-API exposure type requires the Gateway API to be served and the
matching route resource to exist; other types pass. -/
def validate_exposure_type_for_cluster (caps : ClusterCaps)
    (cluster_name exposure_type : String) : Except WebappErr Unit :=
  match required_gateway_resource exposure_type with
  | none => Except.ok ()
  | some r =>
      if !caps.gateway_api_available then
        Except.error (WebappErr.invalidExposureType
          ("Gateway API is not available in cluster " ++ cluster_name
            ++ ". Exposure type " ++ exposure_type ++ " requires Gateway API support."))
      else if !(caps.gateway_resources.contains r) then
        Except.error (WebappErr.invalidExposureType
          ("Gateway API resource " ++ r ++ " is not available in cluster "
            ++ cluster_name ++ ". Required for exposure type " ++ exposure_type ++ "."))
      else Except.ok ()

/-- `validate_visibility_for_cluster` (webapp_validators.py lines 113-128):
public/private visibility requires the Gateway API; cluster visibility
passes. -/
def validate_visibility_for_cluster (caps : ClusterCaps)
    (cluster_name visibility : String) : Except WebappErr Unit :=
  if visibility != "public" && visibility != "private" then Except.ok ()
  else if !caps.gateway_api_available then
    Except.error (WebappErr.invalidVisibility
      ("Cluster " ++ cluster_name ++ " does not have Gateway API available. "
        ++ "Visibility public or private requires Gateway API support."))
  else Except.ok ()

/-- `WebappService._validate_exposure_settings` (webapp_service.py lines
126-132): validate the exposure type and the visibility against the cluster
when the respective keys exist. -/
def validate_exposure_settings (caps : ClusterCaps) (cluster_name : String)
    (settings_dict : SettingsDoc) : Except WebappErr Unit :=
  match settings_dict.exposure with
  | none => Except.ok ()
  | some e =>
      match validate_exposure_type_for_cluster caps cluster_name e.type with
      | Except.error err => Except.error err
      | Except.ok _ =>
          match e.visibility with
          | some v => validate_visibility_for_cluster caps cluster_name v
          | none => Except.ok ()

/-- `validate_url_for_exposure` (webapp_validators.py lines 130-155), as
invoked from `create_webapp` (is_update false). -/
def validate_url_for_exposure (url : Option String)
    (exposure_type exposure_visibility : String) : Except WebappErr Unit :=
  if exposure_type == "http" && exposure_visibility != "cluster" && !url_truthy url then
    Except.error (WebappErr.invalidURL
      "URL is required for webapp components with HTTP exposure type and visibility public or private")
  else if (exposure_type != "http" || exposure_visibility == "cluster") && url_truthy url then
    if exposure_type != "http" then
      Except.error (WebappErr.invalidURL
        ("URL is not allowed for webapp components with exposure type "
          ++ exposure_type ++ ". URL is only allowed for HTTP exposure type."))
    else
      Except.error (WebappErr.invalidURL
        "URL is not allowed for webapp components with cluster visibility. URL is only allowed for public or private visibility.")
  else Except.ok ()

/-- `WebappService._build_webapp_entity` (webapp_service.py lines 134-150):
dump the settings, read the exposure with defaults, keep the URL only for
http exposure with non-cluster visibility. -/
def build_webapp_entity (dto : WebappCreateDto) (next_id : Nat) : Component :=
  let settings_dict := dto.settings.model_dump
  let exposure_type := exposure_type_of settings_dict
  let exposure_visibility := exposure_visibility_of settings_dict
  let url := if exposure_type == "http" && exposure_visibility != "cluster"
    then dto.url else none
  ⟨next_id, dto.name, ComponentType.webapp, some settings_dict, url, dto.enabled⟩

/-- `WebappService.create_webapp` (webapp_service.py lines 49-70): DTO
validation, exposure-capability validation, URL/exposure validation, then
persist the row (commit), ensure the placement record and deploy. -/
def create_webapp (dto : WebappCreateDto) (caps : ClusterCaps)
    (cluster_name : String) (cluster_id next_id fresh_uuid : Nat)
    (upsert_to_k8s_func : Store → Except String Store) (db : DB) :
    DB × Except WebappErr Component :=
  match validate_webapp_create_dto dto with
  | Except.error e => (db, Except.error e)
  | Except.ok _ =>
  match validate_exposure_settings caps cluster_name dto.settings.model_dump with
  | Except.error e => (db, Except.error e)
  | Except.ok _ =>
  match validate_url_for_exposure dto.url dto.settings.exposure.type
      dto.settings.exposure.visibility with
  | Except.error e => (db, Except.error e)
  | Except.ok _ =>
      let w := build_webapp_entity dto next_id
      let db1 := DB.commit { db with pending :=
        { db.pending with components := db.pending.components ++ [w] } }
      let r := ensure_cluster_instance db1.pending.placements w.id cluster_id fresh_uuid
      let db2 := { db1 with pending := { db1.pending with placements := r.1 } }
      match deploy_to_kubernetes upsert_to_k8s_func db2 cluster_name "webapp" with
      | (db3, none) => (db3, Except.ok w)
      | (db3, some m) => (db3, Except.error (WebappErr.deployFailure m))

/-- `WebappService._update_webapp_fields` (webapp_service.py lines 153-188):
when settings are supplied, store them and recompute the URL (cleared for
non-http or cluster exposure, else replaced only when the payload carries a
URL); apply the optional enabled flag; finally require a URL whenever the
resulting exposure is http with non-cluster visibility.  The trailing
`repository.update` commit is applied by `update_webapp`. -/
def update_webapp_fields (webapp : Component) (dto : WebappUpdateDto) :
    Except WebappErr (Component × EnabledChanged) :=
  let webapp1 :=
    match dto.settings with
    | none => webapp
    | some sd =>
        let settings_dict := sd.model_dump
        let w := { webapp with settings := some settings_dict }
        let exposure_type := exposure_type_of settings_dict
        let exposure_visibility := exposure_visibility_of settings_dict
        if exposure_type != "http" || exposure_visibility == "cluster" then
          { w with url := none }
        else
          match dto.url with
          | some u => { w with url := some u }
          | none => w
  let r := update_component_enabled_field webapp1 dto.enabled
  let webapp2 := r.1
  let final_settings := settings_or_empty webapp2.settings
  let exposure_type := exposure_type_of final_settings
  let exposure_visibility := exposure_visibility_of final_settings
  if exposure_type == "http" && exposure_visibility != "cluster"
      && !url_truthy webapp2.url then
    Except.error (WebappErr.invalidURL
      "URL is required for webapp components with HTTP exposure type and visibility public or private")
  else Except.ok (webapp2, r.2)

/-- `WebappService.update_webapp` (webapp_service.py lines 72-98): compute
`has_changes` from field presence, apply the field updates (committed by
`repository.update`), get-or-create the placement record, then branch on
the enabled change, or redeploy when the webapp is enabled and the payload
carried any field.  No exposure-capability validation is performed on this
path. -/
def update_webapp (webapp : Component) (dto : WebappUpdateDto)
    (cluster_name : String) (cluster_id fresh_uuid : Nat)
    (upsert_to_k8s_func : Store → Except String Store)
    (delete_from_k8s_func : Store → Except String Unit) (db : DB) :
    DB × Except WebappErr Component × List RemoteCall :=
  let has_changes := dto.settings.isSome || dto.url.isSome || dto.enabled.isSome
  match update_webapp_fields webapp dto with
  | Except.error e => (db, Except.error e, [])
  | Except.ok (webapp2, ec) =>
      let db1 := DB.commit { db with pending :=
        { db.pending with components := replace_component db.pending.components webapp2 } }
      let pr := get_or_create_cluster_instance db1.pending.placements webapp2.id
        cluster_id fresh_uuid
      let db2 := { db1 with pending := { db1.pending with placements := pr.1 } }
      if ec.changed then
        let h := handle_enabled_change ec delete_from_k8s_func upsert_to_k8s_func db2
          webapp2.name cluster_name "webapp"
        match h.2.1 with
        | none => (h.1, Except.ok webapp2, h.2.2)
        | some m => (h.1, Except.error (WebappErr.deployFailure m), h.2.2)
      else if webapp2.enabled && has_changes then
        match deploy_to_kubernetes upsert_to_k8s_func db2 cluster_name "webapp" with
        | (db3, none) => (db3, Except.ok webapp2, [RemoteCall.applyCall])
        | (db3, some m) => (db3, Except.error (WebappErr.deployFailure m), [RemoteCall.applyCall])
      else (db2, Except.ok webapp2, [])

/-! ### Instance sync (instance_service.py lines 112-186) -/

instance {ε α : Type} [DecidableEq ε] [DecidableEq α] : DecidableEq (Except ε α) :=
  fun a b =>
  match a, b with
  | Except.ok x, Except.ok y =>
      if h : x = y then isTrue (h ▸ rfl) else isFalse (fun hh => h (by cases hh; rfl))
  | Except.ok _, Except.error _ => isFalse (fun h => Except.noConfusion h)
  | Except.error _, Except.ok _ => isFalse (fun h => Except.noConfusion h)
  | Except.error x, Except.error y =>
      if h : x = y then isTrue (h ▸ rfl) else isFalse (fun hh => h (by cases hh; rfl))

/-- A component as `sync_instance` sees it: its name, enabled flag, the
string form of its type, and the outcome of its per-component step (the
placement get-or-create plus the kubernetes upsert, whose exceptions the
loop catches uniformly). -/
structure SyncComponent where
  name : String
  enabled : Bool
  component_type : String
  step : Except String Unit
deriving DecidableEq, Repr

/-- The component types `sync_instance` dispatches on. -/
def known_component_type (t : String) : Bool :=
  t == "webapp" || t == "worker" || t == "cron"

/-- One iteration of the sync loop: skip disabled components; record an
error entry for unknown types; otherwise count a success or record the
caught error with the component name.  The accumulator is
(synced_components, errors). -/
def sync_component_step (acc : Nat × List (String × String)) (c : SyncComponent) :
    Nat × List (String × String) :=
  if !c.enabled then acc
  else if !known_component_type c.component_type then
    (acc.1, acc.2 ++ [(c.name, "Unknown component type: " ++ c.component_type)])
  else
    match c.step with
    | Except.ok _ => (acc.1 + 1, acc.2)
    | Except.error e => (acc.1, acc.2 ++ [(c.name, e)])

/-- The summary `sync_instance` returns. -/
structure SyncSummary where
  synced_components : Nat
  total_components : Nat
  errors : List (String × String)
deriving DecidableEq, Repr

/-- `InstanceService.sync_instance` loop and summary: the total counts the
enabled components, the loop accumulates successes and recorded failures,
and the call always returns a summary (component failures are caught, never
re-raised). -/
def sync_instance (components : List SyncComponent) : SyncSummary :=
  let total := (components.filter (fun c => c.enabled)).length
  let r := components.foldl sync_component_step (0, [])
  ⟨r.1, total, r.2⟩

/-- A component counted as synced: enabled, of known type, step succeeded. -/
def sync_success (c : SyncComponent) : Bool :=
  c.enabled && known_component_type c.component_type &&
    (match c.step with
     | Except.ok _ => true
     | Except.error _ => false)

/-- A component whose step failed (used to state the sync claims). -/
def step_failed (c : SyncComponent) : Bool :=
  match c.step with
  | Except.ok _ => false
  | Except.error _ => true

/-- The error entry the sync loop records for a component, if any. -/
def sync_error_entry (c : SyncComponent) : Option (String × String) :=
  if !c.enabled then none
  else if !known_component_type c.component_type then
    some (c.name, "Unknown component type: " ++ c.component_type)
  else
    match c.step with
    | Except.ok _ => none
    | Except.error e => some (c.name, e)

/-! ### Environment settings serialization (deploy vs sync) -/

/-- A `Settings` row of an environment: a key/value pair
(settings_service.py builds rows from `key` and `value`). -/
structure SettingsRow where
  key : String
  value : String
deriving DecidableEq, Repr

/-- Modelled from the spec: `serialize_settings`
(app/shared/serializers/serializers.py, absent from src/) — environment-wide
settings are serialized into a flat map of their key/value pairs. -/
def serialize_settings (rows : List SettingsRow) : List (String × String) :=
  rows.map (fun r => (r.key, r.value))

/-- The environment settings the deploy path serializes:
`deploy_to_kubernetes` calls `repository.find_settings_by_environment_id`,
which returns every row (`.all()`). -/
def deploy_settings_serialized (rows : List SettingsRow) : List (String × String) :=
  serialize_settings rows

/-- The environment settings the sync path serializes: `sync_instance`
queries `.first()` and serializes that single row, or uses the empty map
when the environment has no settings row. -/
def sync_settings_serialized (rows : List SettingsRow) : List (String × String) :=
  match rows.head? with
  | some r => serialize_settings [r]
  | none => []

/-! ### Helper lemmas -/

theorem find_none_countP_zero (ps : List Placement) (cid : Nat)
    (h : find_cluster_instance_by_component_id ps cid = none) :
    ps.countP (fun p => p.application_component_id == cid) = 0 := by
  rw [List.countP_eq_zero]
  intro p hp
  have := List.find?_eq_none.mp h p hp
  simpa using this

theorem ensure_preserves_unique (ps : List Placement) (cid cl u : Nat)
    (h : placement_unique ps) :
    placement_unique (ensure_cluster_instance ps cid cl u).1 := by
  unfold ensure_cluster_instance
  cases hf : find_cluster_instance_by_component_id ps cid with
  | some p => simpa using h
  | none =>
      intro cid2
      simp only [List.countP_append, List.countP_cons, List.countP_nil]
      by_cases hc : cid2 = cid
      · subst hc
        have h0 := find_none_countP_zero ps cid2 hf
        simp [h0]
      · have : ((⟨u, cl, cid⟩ : Placement).application_component_id == cid2) = false := by
          simp [Ne.symm hc]
        simp [this]
        exact h cid2

theorem getOrCreate_preserves_unique (ps : List Placement) (cid cl u : Nat)
    (h : placement_unique ps) :
    placement_unique (get_or_create_cluster_instance ps cid cl u).1 := by
  unfold get_or_create_cluster_instance
  cases hf : find_cluster_instance_by_component_id ps cid with
  | some p => simpa using h
  | none => simpa using ensure_preserves_unique ps cid cl u h

/-! ### Claim theorems -/

/-- C1: when the gateway apply raises during a create or update deploy, the
operation surfaces a deploy failure naming the cluster and the underlying
error, and the committed (persisted) store — hence every component's
enabled/settings/url fields — is exactly what it was just before the remote
call: the session is rolled back, nothing is partially committed. -/
theorem deploy_failure_rolls_back_store
    (upsert_to_k8s_func : Store → Except String Store) (db : DB)
    (cluster_name component_type e : String)
    (h : upsert_to_k8s_func db.pending = Except.error e) :
    (deploy_to_kubernetes upsert_to_k8s_func db cluster_name component_type).1.committed
        = db.committed ∧
    (deploy_to_kubernetes upsert_to_k8s_func db cluster_name component_type).2 =
      some ("Failed to deploy " ++ component_type ++ " to Kubernetes cluster "
        ++ cluster_name ++ ": " ++ e) := by
  simp [deploy_to_kubernetes, h, DB.rollback]

theorem deploy_failure_rolls_back_store_witness :
    (deploy_to_kubernetes (fun _ => Except.error "boom")
        ⟨⟨[⟨1, "w", ComponentType.webapp, none, none, true⟩], []⟩,
         ⟨[⟨1, "w", ComponentType.webapp, none, some "u", true⟩], []⟩⟩
        "c1" "webapp").1.committed
      = ⟨[⟨1, "w", ComponentType.webapp, none, none, true⟩], []⟩ ∧
    (deploy_to_kubernetes (fun _ => Except.error "boom")
        ⟨⟨[⟨1, "w", ComponentType.webapp, none, none, true⟩], []⟩,
         ⟨[⟨1, "w", ComponentType.webapp, none, some "u", true⟩], []⟩⟩
        "c1" "webapp").2 =
      some ("Failed to deploy " ++ "webapp" ++ " to Kubernetes cluster "
        ++ "c1" ++ ": " ++ "boom") :=
  deploy_failure_rolls_back_store (fun _ => Except.error "boom") _ "c1" "webapp" "boom" rfl

/-- C9 counterexample: the sync path serializes only the first Settings row
of the environment (`.first()`), while the deploy path serializes every row
(`.all()`); with two settings rows the two renderer inputs differ, so the
sync apply is not equivalent to the deploy apply. -/
theorem sync_deploy_settings_differ :
    sync_settings_serialized [⟨"A", "1"⟩, ⟨"B", "2"⟩] ≠
      deploy_settings_serialized [⟨"A", "1"⟩, ⟨"B", "2"⟩] := by
  decide

/-- C9 (amended): the apply performed by sync matches the deploy path of the
lifecycle operations — same upsert function, same rendered input — exactly
when the environment has at most one Settings row, since sync serializes
only the first row while deploy serializes all of them. -/
theorem sync_deploy_settings_agree_single (rows : List SettingsRow)
    (h : rows.length ≤ 1) :
    sync_settings_serialized rows = deploy_settings_serialized rows := by
  match rows with
  | [] => rfl
  | [r] => rfl
  | a :: b :: t => simp at h

theorem sync_deploy_settings_agree_single_witness :
    ([(⟨"A", "1"⟩ : SettingsRow)].length ≤ 1) ∧
    sync_settings_serialized [(⟨"A", "1"⟩ : SettingsRow)] =
      deploy_settings_serialized [(⟨"A", "1"⟩ : SettingsRow)] :=
  ⟨by decide, sync_deploy_settings_agree_single [⟨"A", "1"⟩] (by decide)⟩

/-- C7: across any sequence of the operations that touch the placement
table, at most one PlacementRecord exists per component (each record binding
exactly one cluster by construction); `ensure` returns an existing record
unchanged without creating another, and otherwise creates exactly one
record binding the component to the given cluster. -/
theorem placement_record_uniqueness :
    (∀ ps ops, placement_unique ps → placement_unique (applyPlacementOps ps ops)) ∧
    (∀ ps cid cl u p, find_cluster_instance_by_component_id ps cid = some p →
        ensure_cluster_instance ps cid cl u = (ps, p)) ∧
    (∀ ps cid cl u, find_cluster_instance_by_component_id ps cid = none →
        ensure_cluster_instance ps cid cl u = (ps ++ [⟨u, cl, cid⟩], ⟨u, cl, cid⟩) ∧
        ((ensure_cluster_instance ps cid cl u).1.countP
            (fun p => p.application_component_id == cid)) = 1) := by
  refine ⟨?_, ?_, ?_⟩
  · intro ps ops h
    induction ops generalizing ps with
    | nil => simpa [applyPlacementOps] using h
    | cons op t ih =>
        have hstep : placement_unique (applyPlacementOp ps op) := by
          cases op with
          | ensure cid cl u => exact ensure_preserves_unique ps cid cl u h
          | getOrCreate cid cl u => exact getOrCreate_preserves_unique ps cid cl u h
        simpa [applyPlacementOps] using ih (applyPlacementOp ps op) hstep
  · intro ps cid cl u p hf
    simp [ensure_cluster_instance, hf]
  · intro ps cid cl u hf
    constructor
    · simp [ensure_cluster_instance, hf]
    · have h0 := find_none_countP_zero ps cid hf
      simp [ensure_cluster_instance, hf, List.countP_append, List.countP_cons, h0]

theorem placement_record_uniqueness_witness :
    placement_unique (applyPlacementOps []
      [PlacementOp.ensure 7 2 5, PlacementOp.getOrCreate 7 3 9]) ∧
    ensure_cluster_instance [⟨5, 2, 7⟩] 7 3 9 = ([⟨5, 2, 7⟩], ⟨5, 2, 7⟩) ∧
    ensure_cluster_instance [] 7 2 5 = ([⟨5, 2, 7⟩], ⟨5, 2, 7⟩) := by
  refine ⟨placement_record_uniqueness.1 [] _ ?_, ?_, ?_⟩
  · intro cid
    simp
  · exact placement_record_uniqueness.2.1 [⟨5, 2, 7⟩] 7 3 9 ⟨5, 2, 7⟩ rfl
  · exact (placement_record_uniqueness.2.2 [] 7 2 5 rfl).1

/-- C3: when the gateway delete raises during component deletion, the
failure is only recorded: the operation still reports success, the recorded
error names the component, the placement record (when one existed) is gone
from the committed store, and — in every case, failure or not — the
component row itself is removed from the committed store last. -/
theorem delete_gateway_failure_resilience :
    (∀ (db : DB) (c : Component) (df : Store → Except String Unit) (t : String)
        (ci : Placement) (e : String),
        find_cluster_instance_by_component_id db.pending.placements c.id = some ci →
        df db.pending = Except.error e →
        (delete_component db c df t).2.1 = str_capitalize t ++ " deleted successfully" ∧
        (delete_component db c df t).2.2 =
          ["Error removing " ++ t ++ " " ++ c.name ++ " from Kubernetes: " ++ e] ∧
        (∀ p ∈ (delete_component db c df t).1.committed.placements, p.uuid ≠ ci.uuid)) ∧
    (∀ (db : DB) (c : Component) (df : Store → Except String Unit) (t : String),
        ∀ k ∈ (delete_component db c df t).1.committed.components, k.id ≠ c.id) := by
  constructor
  · intro db c df t ci e hfind hdf
    refine ⟨?_, ?_, ?_⟩
    · simp only [delete_component, hfind, delete_from_kubernetes_safe, hdf, DB.commit]
    · simp only [delete_component, hfind, delete_from_kubernetes_safe, hdf, DB.commit]
    · intro p hp
      simp only [delete_component, hfind, delete_from_kubernetes_safe, hdf, DB.commit] at hp
      have := (List.mem_filter.mp hp).2
      simpa using this
  · intro db c df t
    cases hfind : find_cluster_instance_by_component_id db.pending.placements c.id with
    | some ci =>
        intro k hk
        simp only [delete_component, hfind, delete_from_kubernetes_safe, DB.commit] at hk
        cases hdf : df db.pending with
        | ok _ =>
            simp only [hdf] at hk
            have := (List.mem_filter.mp hk).2
            simpa using this
        | error e =>
            simp only [hdf] at hk
            have := (List.mem_filter.mp hk).2
            simpa using this
    | none =>
        intro k hk
        simp only [delete_component, hfind, DB.commit] at hk
        have := (List.mem_filter.mp hk).2
        simpa using this

theorem delete_gateway_failure_resilience_witness :
    (delete_component
        ⟨⟨[⟨1, "w", ComponentType.worker, none, none, true⟩], [⟨5, 2, 1⟩]⟩,
         ⟨[⟨1, "w", ComponentType.worker, none, none, true⟩], [⟨5, 2, 1⟩]⟩⟩
        ⟨1, "w", ComponentType.worker, none, none, true⟩
        (fun _ => Except.error "boom") "worker").2.1 =
      str_capitalize "worker" ++ " deleted successfully" ∧
    (delete_component
        ⟨⟨[⟨1, "w", ComponentType.worker, none, none, true⟩], [⟨5, 2, 1⟩]⟩,
         ⟨[⟨1, "w", ComponentType.worker, none, none, true⟩], [⟨5, 2, 1⟩]⟩⟩
        ⟨1, "w", ComponentType.worker, none, none, true⟩
        (fun _ => Except.error "boom") "worker").2.2 =
      ["Error removing " ++ "worker" ++ " " ++ "w" ++ " from Kubernetes: " ++ "boom"] :=
  ⟨(delete_gateway_failure_resilience.1
      ⟨⟨[⟨1, "w", ComponentType.worker, none, none, true⟩], [⟨5, 2, 1⟩]⟩,
       ⟨[⟨1, "w", ComponentType.worker, none, none, true⟩], [⟨5, 2, 1⟩]⟩⟩
      ⟨1, "w", ComponentType.worker, none, none, true⟩
      (fun _ => Except.error "boom") "worker" ⟨5, 2, 1⟩ "boom" rfl rfl).1,
   (delete_gateway_failure_resilience.1
      ⟨⟨[⟨1, "w", ComponentType.worker, none, none, true⟩], [⟨5, 2, 1⟩]⟩,
       ⟨[⟨1, "w", ComponentType.worker, none, none, true⟩], [⟨5, 2, 1⟩]⟩⟩
      ⟨1, "w", ComponentType.worker, none, none, true⟩
      (fun _ => Except.error "boom") "worker" ⟨5, 2, 1⟩ "boom" rfl rfl).2.1⟩

/-- Whether a stored component carries an exposure descriptor with private
visibility. -/
def has_private_exposure (c : Component) : Bool :=
  match c.settings with
  | some s =>
      match s.exposure with
      | some e => e.visibility == some "private"
      | none => false
  | none => false

/-- C2 counterexample: an update of an enabled worker whose payload settings
carry no exposure sub-object commits those settings verbatim — the update
path never calls `ensure_private_exposure_settings` — so the stored settings
end up without any exposure descriptor, let alone a private one. -/
theorem worker_update_drops_private_exposure :
    (update_worker
        ⟨1, "w", ComponentType.worker,
          some ⟨some ⟨"http", 80, some "private"⟩, []⟩, none, true⟩
        ⟨none, some ⟨none, [("cpu", "1.0")]⟩⟩
        "c" 2 5 (fun s => Except.ok s) (fun _ => Except.ok ())
        ⟨⟨[⟨1, "w", ComponentType.worker,
              some ⟨some ⟨"http", 80, some "private"⟩, []⟩, none, true⟩], [⟨5, 2, 1⟩]⟩,
         ⟨[⟨1, "w", ComponentType.worker,
              some ⟨some ⟨"http", 80, some "private"⟩, []⟩, none, true⟩], [⟨5, 2, 1⟩]⟩⟩
      ).1.committed.components =
      [⟨1, "w", ComponentType.worker, some ⟨none, [("cpu", "1.0")]⟩, none, true⟩] ∧
    has_private_exposure
      ⟨1, "w", ComponentType.worker, some ⟨none, [("cpu", "1.0")]⟩, none, true⟩ = false := by
  constructor
  · rfl
  · decide

/-- C2 (amended): `ensure_private_exposure_settings` implements exactly the
synthesis rules of the claim — a missing exposure sub-object becomes
http/80/private and a missing visibility is forced to private, while a
supplied visibility is kept — and every worker/cron create stores the
settings normalized through it; but an update that supplies settings stores
them unmodified, without this normalization. -/
theorem worker_exposure_normalization :
    (∀ s : SettingsDoc, s.exposure = none →
        ensure_private_exposure_settings s =
          { s with exposure := some ⟨"http", 80, some "private"⟩ }) ∧
    (∀ (s : SettingsDoc) (e : ExposureDoc), s.exposure = some e → e.visibility = none →
        ensure_private_exposure_settings s =
          { s with exposure := some { e with visibility := some "private" } }) ∧
    (∀ (s : SettingsDoc) (e : ExposureDoc) (v : String),
        s.exposure = some e → e.visibility = some v →
        ensure_private_exposure_settings s = s) ∧
    (∀ name enabled s cn cid nid fu up db ct cts w,
        (create_worker name enabled s cn cid nid fu up db ct cts).2 = Except.ok w →
        w.settings = some (ensure_private_exposure_settings s)) ∧
    (∀ w dto s, dto.settings = some s →
        (update_worker_fields w dto).1.settings = some s) := by
  refine ⟨?_, ?_, ?_, ?_, ?_⟩
  · intro s h
    simp [ensure_private_exposure_settings, h]
  · intro s e hs hv
    simp [ensure_private_exposure_settings, hs, hv]
  · intro s e v hs hv
    simp [ensure_private_exposure_settings, hs, hv]
  · intro name enabled s cn cid nid fu up db ct cts w h
    unfold create_worker at h
    by_cases h1 : (name == "" || py_is_blank name) = true
    · simp [h1] at h
    · by_cases h2 : py_contains_space name = true
      · simp [h1, h2] at h
      · simp only [h1, h2, Bool.false_eq_true, if_false] at h
        split at h
        · simp only [Except.ok.injEq] at h
          rw [← h]
        · simp at h
  · intro w dto s h
    cases he : dto.enabled <;>
      simp [update_worker_fields, update_component_enabled_field, h, he]

theorem worker_exposure_normalization_witness :
    ensure_private_exposure_settings ⟨none, []⟩ =
      ⟨some ⟨"http", 80, some "private"⟩, []⟩ ∧
    (⟨1, "w", ComponentType.worker,
        some ⟨some ⟨"http", 80, some "private"⟩, []⟩, none, true⟩ : Component).settings =
      some (ensure_private_exposure_settings ⟨none, []⟩) :=
  ⟨worker_exposure_normalization.1 ⟨none, []⟩ rfl,
   worker_exposure_normalization.2.2.2.1 "w" true ⟨none, []⟩ "c" 2 1 5
     (fun s => Except.ok s) ⟨⟨[], []⟩, ⟨[], []⟩⟩ ComponentType.worker "worker"
     ⟨1, "w", ComponentType.worker,
       some ⟨some ⟨"http", 80, some "private"⟩, []⟩, none, true⟩ (by decide)⟩

/-- The error text the sync loop would record for a component. -/
def err_text (c : SyncComponent) : String :=
  match c.step with
  | Except.ok _ => ""
  | Except.error e => e

theorem sync_fold_spec (l : List SyncComponent) (n : Nat)
    (errs : List (String × String)) :
    l.foldl sync_component_step (n, errs) =
      (n + l.countP sync_success, errs ++ l.filterMap sync_error_entry) := by
  induction l generalizing n errs with
  | nil => simp
  | cons c t ih =>
      rcases c with ⟨name, en, ty, st⟩
      cases en with
      | false =>
          simp only [List.foldl_cons, List.countP_cons, List.filterMap_cons]
          simp [sync_component_step, sync_success, sync_error_entry, ih]
      | true =>
          cases hk : known_component_type ty with
          | false =>
              simp only [List.foldl_cons, List.countP_cons, List.filterMap_cons]
              simp [sync_component_step, sync_success, sync_error_entry, hk, ih]
          | true =>
              cases st with
              | ok u =>
                  cases u
                  simp only [List.foldl_cons, List.countP_cons, List.filterMap_cons]
                  simp [sync_component_step, sync_success, sync_error_entry, hk, ih]
                  omega
              | error e =>
                  simp only [List.foldl_cons, List.countP_cons, List.filterMap_cons]
                  simp [sync_component_step, sync_success, sync_error_entry, hk, ih]

theorem sync_errors_spec (l : List SyncComponent)
    (h : ∀ c ∈ l, c.enabled = true → known_component_type c.component_type = true) :
    l.filterMap sync_error_entry =
      ((l.filter (fun c => c.enabled)).filter step_failed).map
        (fun c => (c.name, err_text c)) := by
  induction l with
  | nil => rfl
  | cons c t ih =>
      have ht : ∀ x ∈ t, x.enabled = true → known_component_type x.component_type = true :=
        fun x hx => h x (List.mem_cons_of_mem c hx)
      cases hen : c.enabled with
      | false => simp [sync_error_entry, hen, ih ht]
      | true =>
          have hk : known_component_type c.component_type = true :=
            h c (List.mem_cons_self c t) hen
          cases hst : c.step with
          | ok u =>
              simp [sync_error_entry, hen, hk, hst, step_failed, ih ht]
          | error e =>
              simp [sync_error_entry, hen, hk, hst, step_failed, err_text, ih ht]

theorem sync_success_count (l : List SyncComponent)
    (h : ∀ c ∈ l, c.enabled = true → known_component_type c.component_type = true) :
    l.countP sync_success + ((l.filter (fun c => c.enabled)).filter step_failed).length
      = (l.filter (fun c => c.enabled)).length := by
  induction l with
  | nil => rfl
  | cons c t ih =>
      have ht : ∀ x ∈ t, x.enabled = true → known_component_type x.component_type = true :=
        fun x hx => h x (List.mem_cons_of_mem c hx)
      have iht := ih ht
      cases hen : c.enabled with
      | false =>
          simp only [List.countP_cons, List.filter_cons]
          have hs : sync_success c = false := by
            simp [sync_success, hen]
          simp [hen, hs] at iht ⊢
          omega
      | true =>
          have hk : known_component_type c.component_type = true :=
            h c (List.mem_cons_self c t) hen
          cases hst : c.step with
          | ok u =>
              simp only [List.countP_cons, List.filter_cons]
              have hs : sync_success c = true := by
                simp [sync_success, hen, hk, hst]
              have hf : step_failed c = false := by
                simp [step_failed, hst]
              simp [hen, hs, hf] at iht ⊢
              omega
          | error e =>
              simp only [List.countP_cons, List.filter_cons]
              have hs : sync_success c = false := by
                simp [sync_success, hen, hk, hst]
              have hf : step_failed c = true := by
                simp [step_failed, hst]
              simp [hen, hs, hf] at iht ⊢
              omega

/-- C8: for an instance whose enabled components all have a dispatchable
kind and where exactly one enabled component's placement/render/apply step
throws, `sync` reports all enabled components as attempted, all but the one
as synced, and exactly one failure entry carrying that component's name and
error text — and the sync itself returns a summary rather than raising. -/
theorem sync_partial_failure_summary
    (components : List SyncComponent) (bad : SyncComponent) (e : String)
    (hknown : ∀ c ∈ components, c.enabled = true →
        known_component_type c.component_type = true)
    (hone : (components.filter (fun c => c.enabled)).filter step_failed = [bad])
    (hbad : bad.step = Except.error e) :
    (sync_instance components).total_components
        = (components.filter (fun c => c.enabled)).length ∧
    (sync_instance components).synced_components
        = (components.filter (fun c => c.enabled)).length - 1 ∧
    (sync_instance components).errors = [(bad.name, e)] := by
  have hfold := sync_fold_spec components 0 []
  have herr := sync_errors_spec components hknown
  have hcnt := sync_success_count components hknown
  rw [hone] at hcnt
  refine ⟨rfl, ?_, ?_⟩
  · show (components.foldl sync_component_step (0, [])).1 = _
    rw [hfold]
    simp only [List.length_singleton] at hcnt
    omega
  · show (components.foldl sync_component_step (0, [])).2 = _
    rw [hfold, herr, hone]
    simp [err_text, hbad]

theorem sync_partial_failure_summary_witness :
    (sync_instance
      [⟨"a", true, "webapp", Except.ok ()⟩,
       ⟨"b", true, "worker", Except.error "x"⟩,
       ⟨"d", false, "cron", Except.ok ()⟩]).total_components = 2 ∧
    (sync_instance
      [⟨"a", true, "webapp", Except.ok ()⟩,
       ⟨"b", true, "worker", Except.error "x"⟩,
       ⟨"d", false, "cron", Except.ok ()⟩]).synced_components = 1 ∧
    (sync_instance
      [⟨"a", true, "webapp", Except.ok ()⟩,
       ⟨"b", true, "worker", Except.error "x"⟩,
       ⟨"d", false, "cron", Except.ok ()⟩]).errors = [("b", "x")] := by
  have h := sync_partial_failure_summary
    [⟨"a", true, "webapp", Except.ok ()⟩,
     ⟨"b", true, "worker", Except.error "x"⟩,
     ⟨"d", false, "cron", Except.ok ()⟩]
    ⟨"b", true, "worker", Except.error "x"⟩ "x"
    (by decide) (by decide) rfl
  exact ⟨h.1.trans (by decide), h.2.1.trans (by decide), h.2.2⟩

theorem update_worker_fields_spec (w : Component) (dto : WorkerUpdateDto) :
    (update_worker_fields w dto).2 =
      (match dto.enabled with
       | none => ⟨false, w.enabled, w.enabled⟩
       | some e => ⟨e != w.enabled, w.enabled, e⟩) ∧
    (update_worker_fields w dto).1.enabled =
      (match dto.enabled with
       | none => w.enabled
       | some e => e) := by
  cases he : dto.enabled <;> cases hs : dto.settings <;>
    simp [update_worker_fields, update_component_enabled_field, he, hs]

theorem update_webapp_fields_full_spec (w : Component) (dto : WebappUpdateDto)
    (w2 : Component) (ec : EnabledChanged)
    (h : update_webapp_fields w dto = Except.ok (w2, ec)) :
    w2.id = w.id ∧ w2.name = w.name ∧ w2.type = w.type ∧
    w2.enabled = (match dto.enabled with
                  | none => w.enabled
                  | some e => e) ∧
    ec = (match dto.enabled with
          | none => ⟨false, w.enabled, w.enabled⟩
          | some e => ⟨e != w.enabled, w.enabled, e⟩) ∧
    w2.settings = (match dto.settings with
                   | none => w.settings
                   | some sd => some sd.model_dump) ∧
    w2.url = (match dto.settings with
              | none => w.url
              | some sd =>
                  if exposure_type_of sd.model_dump != "http"
                      || exposure_visibility_of sd.model_dump == "cluster" then none
                  else
                    match dto.url with
                    | some u => some u
                    | none => w.url) ∧
    (exposure_type_of (settings_or_empty w2.settings) == "http"
       && exposure_visibility_of (settings_or_empty w2.settings) != "cluster"
       && !url_truthy w2.url) = false := by
  unfold update_webapp_fields at h
  cases hs : dto.settings with
  | none =>
      rw [hs] at h
      cases he : dto.enabled with
      | none =>
          rw [he] at h
          simp only [update_component_enabled_field] at h
          split at h
          · simp at h
          · rename_i hguard
            simp only [Except.ok.injEq, Prod.mk.injEq] at h
            obtain ⟨h1, h2⟩ := h
            subst h1
            subst h2
            refine ⟨rfl, rfl, rfl, rfl, rfl, rfl, rfl, ?_⟩
            simpa using hguard
      | some e =>
          rw [he] at h
          simp only [update_component_enabled_field] at h
          split at h
          · simp at h
          · rename_i hguard
            simp only [Except.ok.injEq, Prod.mk.injEq] at h
            obtain ⟨h1, h2⟩ := h
            subst h1
            subst h2
            refine ⟨rfl, rfl, rfl, rfl, rfl, rfl, rfl, ?_⟩
            simpa using hguard
  | some sd =>
      rw [hs] at h
      simp only [] at h
      cases hcond : (exposure_type_of sd.model_dump != "http"
          || exposure_visibility_of sd.model_dump == "cluster") with
      | true =>
          rw [hcond] at h
          simp only [if_true] at h
          cases he : dto.enabled with
          | none =>
              rw [he] at h
              simp only [update_component_enabled_field] at h
              split at h
              · simp at h
              · rename_i hguard
                simp only [Except.ok.injEq, Prod.mk.injEq] at h
                obtain ⟨h1, h2⟩ := h
                subst h1
                subst h2
                refine ⟨rfl, rfl, rfl, rfl, rfl, rfl, ?_, ?_⟩
                · simp [hcond]
                · simpa using hguard
          | some e =>
              rw [he] at h
              simp only [update_component_enabled_field] at h
              split at h
              · simp at h
              · rename_i hguard
                simp only [Except.ok.injEq, Prod.mk.injEq] at h
                obtain ⟨h1, h2⟩ := h
                subst h1
                subst h2
                refine ⟨rfl, rfl, rfl, rfl, rfl, rfl, ?_, ?_⟩
                · simp [hcond]
                · simpa using hguard
      | false =>
          rw [hcond] at h
          simp only [if_false, Bool.false_eq_true] at h
          cases hurl : dto.url with
          | none =>
              rw [hurl] at h
              cases he : dto.enabled with
              | none =>
                  rw [he] at h
                  simp only [update_component_enabled_field] at h
                  split at h
                  · simp at h
                  · rename_i hguard
                    simp only [Except.ok.injEq, Prod.mk.injEq] at h
                    obtain ⟨h1, h2⟩ := h
                    subst h1
                    subst h2
                    refine ⟨rfl, rfl, rfl, rfl, rfl, rfl, ?_, ?_⟩
                    · simp [hcond]
                    · simpa using hguard
              | some e =>
                  rw [he] at h
                  simp only [update_component_enabled_field] at h
                  split at h
                  · simp at h
                  · rename_i hguard
                    simp only [Except.ok.injEq, Prod.mk.injEq] at h
                    obtain ⟨h1, h2⟩ := h
                    subst h1
                    subst h2
                    refine ⟨rfl, rfl, rfl, rfl, rfl, rfl, ?_, ?_⟩
                    · simp [hcond]
                    · simpa using hguard
          | some u =>
              rw [hurl] at h
              cases he : dto.enabled with
              | none =>
                  rw [he] at h
                  simp only [update_component_enabled_field] at h
                  split at h
                  · simp at h
                  · rename_i hguard
                    simp only [Except.ok.injEq, Prod.mk.injEq] at h
                    obtain ⟨h1, h2⟩ := h
                    subst h1
                    subst h2
                    refine ⟨rfl, rfl, rfl, rfl, rfl, rfl, ?_, ?_⟩
                    · simp [hcond]
                    · simpa using hguard
              | some e =>
                  rw [he] at h
                  simp only [update_component_enabled_field] at h
                  split at h
                  · simp at h
                  · rename_i hguard
                    simp only [Except.ok.injEq, Prod.mk.injEq] at h
                    obtain ⟨h1, h2⟩ := h
                    subst h1
                    subst h2
                    refine ⟨rfl, rfl, rfl, rfl, rfl, rfl, ?_, ?_⟩
                    · simp [hcond]
                    · simpa using hguard

/-- C5 counterexample: an update whose payload carries `enabled = true` for
a worker that is already enabled — no tracked field changes value — still
issues a gateway apply (the services test field *presence*, not change), so
the claim's "no remote call when nothing changed" clause is false. -/
theorem noop_enabled_payload_still_calls_gateway :
    (update_worker
        ⟨1, "w", ComponentType.worker,
          some ⟨some ⟨"http", 80, some "private"⟩, []⟩, none, true⟩
        ⟨some true, none⟩
        "c" 2 5 (fun s => Except.ok s) (fun _ => Except.ok ())
        ⟨⟨[⟨1, "w", ComponentType.worker,
              some ⟨some ⟨"http", 80, some "private"⟩, []⟩, none, true⟩], [⟨5, 2, 1⟩]⟩,
         ⟨[⟨1, "w", ComponentType.worker,
              some ⟨some ⟨"http", 80, some "private"⟩, []⟩, none, true⟩], [⟨5, 2, 1⟩]⟩⟩
      ).2.2 = [RemoteCall.applyCall] ∧
    [RemoteCall.applyCall] ≠ ([] : List RemoteCall) := by
  constructor
  · decide
  · decide

/-- C5 (amended): on update of any component kind, enabled true→false issues
exactly one gateway delete and no apply; false→true issues exactly one
apply; an enabled component whose payload carries any tracked field —
whether or not its value differs — gets exactly one redeploy apply; and no
remote call is made only when the payload carries no tracked field at
all. -/
theorem update_remote_call_policy :
    (∀ w dto cn cid fu up del db, w.enabled = true → dto.enabled = some false →
        (update_worker w dto cn cid fu up del db).2.2 = [RemoteCall.deleteCall]) ∧
    (∀ w dto cn cid fu up del db, w.enabled = false → dto.enabled = some true →
        (update_worker w dto cn cid fu up del db).2.2 = [RemoteCall.applyCall]) ∧
    (∀ w dto cn cid fu up del db, w.enabled = true →
        (dto.enabled = none ∨ dto.enabled = some true) →
        (dto.settings.isSome || dto.enabled.isSome) = true →
        (update_worker w dto cn cid fu up del db).2.2 = [RemoteCall.applyCall]) ∧
    (∀ w cn cid fu up del db,
        (update_worker w ⟨none, none⟩ cn cid fu up del db).2.2 = []) ∧
    (∀ w dto cn cid fu up del db w2 ec,
        update_webapp_fields w dto = Except.ok (w2, ec) →
        w.enabled = true → dto.enabled = some false →
        (update_webapp w dto cn cid fu up del db).2.2 = [RemoteCall.deleteCall]) ∧
    (∀ w dto cn cid fu up del db w2 ec,
        update_webapp_fields w dto = Except.ok (w2, ec) →
        w.enabled = false → dto.enabled = some true →
        (update_webapp w dto cn cid fu up del db).2.2 = [RemoteCall.applyCall]) ∧
    (∀ w dto cn cid fu up del db w2 ec,
        update_webapp_fields w dto = Except.ok (w2, ec) →
        w.enabled = true →
        (dto.enabled = none ∨ dto.enabled = some true) →
        (dto.settings.isSome || dto.url.isSome || dto.enabled.isSome) = true →
        (update_webapp w dto cn cid fu up del db).2.2 = [RemoteCall.applyCall]) ∧
    (∀ w cn cid fu up del db,
        (update_webapp w ⟨none, none, none⟩ cn cid fu up del db).2.2 = []) := by
  refine ⟨?_, ?_, ?_, ?_, ?_, ?_, ?_, ?_⟩
  · intro w dto cn cid fu up del db hw he
    have hs := update_worker_fields_spec w dto
    rw [he, hw] at hs
    simp only [update_worker]
    rw [hs.1]
    simp [handle_enabled_change, delete_from_kubernetes_safe]
  · intro w dto cn cid fu up del db hw he
    have hs := update_worker_fields_spec w dto
    rw [he, hw] at hs
    simp only [update_worker]
    rw [hs.1]
    simp [handle_enabled_change]
    all_goals split <;> rfl
  · intro w dto cn cid fu up del db hw he hpresent
    have hs := update_worker_fields_spec w dto
    rw [hw] at hs
    simp only [update_worker]
    rcases he with he | he
    · rw [he] at hs
      rw [hs.1]
      simp [hpresent, hs.2]
      all_goals split <;> rfl
    · rw [he] at hs
      rw [hs.1]
      simp [hpresent, hs.2]
      all_goals split <;> rfl
  · intro w cn cid fu up del db
    have hs := update_worker_fields_spec w ⟨none, none⟩
    simp only [update_worker]
    rw [hs.1]
    simp
  · intro w dto cn cid fu up del db w2 ec hok hw he
    have hs := (update_webapp_fields_full_spec w dto w2 ec hok).2.2.2.2.1
    rw [he, hw] at hs
    simp only [update_webapp, hok]
    rw [hs]
    simp [handle_enabled_change, delete_from_kubernetes_safe]
  · intro w dto cn cid fu up del db w2 ec hok hw he
    have hs := (update_webapp_fields_full_spec w dto w2 ec hok).2.2.2.2.1
    rw [he, hw] at hs
    simp only [update_webapp, hok]
    rw [hs]
    simp [handle_enabled_change]
    all_goals split <;> rfl
  · intro w dto cn cid fu up del db w2 ec hok hw he hpresent
    have hfs := update_webapp_fields_full_spec w dto w2 ec hok
    have hec := hfs.2.2.2.2.1
    have hen := hfs.2.2.2.1
    rw [hw] at hec hen
    simp only [update_webapp, hok]
    rcases he with he | he
    · rw [he] at hec hen
      rw [hec]
      simp [hen, hpresent]
      all_goals split <;> rfl
    · rw [he] at hec hen
      rw [hec]
      simp [hen, hpresent]
      all_goals split <;> rfl
  · intro w cn cid fu up del db
    cases hres : update_webapp_fields w ⟨none, none, none⟩ with
    | error e => simp [update_webapp, hres]
    | ok p =>
        rcases p with ⟨w2, ec⟩
        have hec := (update_webapp_fields_full_spec w ⟨none, none, none⟩ w2 ec hres).2.2.2.2.1
        simp only [update_webapp, hres]
        rw [hec]
        simp

theorem handle_enabled_change_ok_upsert (ec : EnabledChanged)
    (del : Store → Except String Unit) (db : DB) (n cn t : String) :
    (handle_enabled_change ec del (fun s => Except.ok s) db n cn t).2.1 = none := by
  unfold handle_enabled_change
  split
  · rfl
  · split
    · simp [deploy_to_kubernetes]
    · rfl

theorem exposure_type_of_dump (sd : WebappSettingsDto) :
    exposure_type_of sd.model_dump = sd.exposure.type := rfl

theorem exposure_visibility_of_dump (sd : WebappSettingsDto) :
    exposure_visibility_of sd.model_dump = sd.exposure.visibility := rfl

theorem update_remote_call_policy_witness :
    (update_worker
        ⟨1, "w", ComponentType.worker,
          some ⟨some ⟨"http", 80, some "private"⟩, []⟩, none, true⟩
        ⟨some false, none⟩
        "c" 2 5 (fun s => Except.ok s) (fun _ => Except.ok ())
        ⟨⟨[], []⟩, ⟨[], []⟩⟩).2.2 = [RemoteCall.deleteCall] ∧
    (update_worker
        ⟨1, "w", ComponentType.worker,
          some ⟨some ⟨"http", 80, some "private"⟩, []⟩, none, true⟩
        ⟨none, none⟩
        "c" 2 5 (fun s => Except.ok s) (fun _ => Except.ok ())
        ⟨⟨[], []⟩, ⟨[], []⟩⟩).2.2 = [] :=
  ⟨update_remote_call_policy.1
      ⟨1, "w", ComponentType.worker,
        some ⟨some ⟨"http", 80, some "private"⟩, []⟩, none, true⟩
      ⟨some false, none⟩ "c" 2 5 (fun s => Except.ok s) (fun _ => Except.ok ())
      ⟨⟨[], []⟩, ⟨[], []⟩⟩ rfl rfl,
   update_remote_call_policy.2.2.2.1
      ⟨1, "w", ComponentType.worker,
        some ⟨some ⟨"http", 80, some "private"⟩, []⟩, none, true⟩
      "c" 2 5 (fun s => Except.ok s) (fun _ => Except.ok ())
      ⟨⟨[], []⟩, ⟨[], []⟩⟩⟩

/-- C6 counterexample: with a cluster that advertises no Gateway API at
all, a webapp update supplying an http/private exposure (a combination
`create` rejects with a capability error on that same cluster) is accepted
and deployed — the update path performs no capability validation. -/
theorem webapp_update_skips_capability_validation :
    webapp_update_dto_valid ⟨some "newurl", none, some ⟨⟨"http", 80, "private"⟩, []⟩⟩ = true ∧
    (update_webapp
        ⟨1, "w", ComponentType.webapp,
          some ⟨some ⟨"http", 80, some "public"⟩, []⟩, some "old", true⟩
        ⟨some "newurl", none, some ⟨⟨"http", 80, "private"⟩, []⟩⟩
        "c" 2 5 (fun s => Except.ok s) (fun _ => Except.ok ())
        ⟨⟨[⟨1, "w", ComponentType.webapp,
              some ⟨some ⟨"http", 80, some "public"⟩, []⟩, some "old", true⟩], [⟨5, 2, 1⟩]⟩,
         ⟨[⟨1, "w", ComponentType.webapp,
              some ⟨some ⟨"http", 80, some "public"⟩, []⟩, some "old", true⟩], [⟨5, 2, 1⟩]⟩⟩
      ).2.1 =
      Except.ok ⟨1, "w", ComponentType.webapp,
        some ⟨some ⟨"http", 80, some "private"⟩, []⟩, some "newurl", true⟩ ∧
    (create_webapp ⟨"w", some "newurl", true, ⟨⟨"http", 80, "private"⟩, []⟩⟩
        ⟨false, []⟩ "c" 2 1 5 (fun s => Except.ok s)
        ⟨⟨[], []⟩, ⟨[], []⟩⟩).2 =
      Except.error (WebappErr.invalidExposureType
        ("Gateway API is not available in cluster " ++ "c"
          ++ ". Exposure type " ++ "http" ++ " requires Gateway API support.")) := by
  refine ⟨by decide, by decide, by decide⟩

/-- C6 (amended): only webapp `create` validates the requested exposure
type and visibility against the cluster's live capabilities — a missing
Gateway API capability makes create fail with a rejected-input error
(`InvalidExposureTypeError` / `InvalidVisibilityError`, not a deploy
failure) before any store mutation; webapp `update` performs no capability
verification and, whenever the field update itself succeeds and the gateway
apply succeeds, accepts the settings. -/
theorem create_validates_cluster_capabilities :
    (∀ dto caps cn cid nid fu up db,
        validate_webapp_create_dto dto = Except.ok () →
        dto.settings.exposure.type = "http" →
        caps.gateway_api_available = false →
        (create_webapp dto caps cn cid nid fu up db).1 = db ∧
        (create_webapp dto caps cn cid nid fu up db).2 =
          Except.error (WebappErr.invalidExposureType
            ("Gateway API is not available in cluster " ++ cn
              ++ ". Exposure type " ++ "http" ++ " requires Gateway API support."))) ∧
    (∀ dto caps cn cid nid fu up db,
        validate_webapp_create_dto dto = Except.ok () →
        required_gateway_resource dto.settings.exposure.type = none →
        dto.settings.exposure.visibility = "public" →
        caps.gateway_api_available = false →
        (create_webapp dto caps cn cid nid fu up db).1 = db ∧
        (create_webapp dto caps cn cid nid fu up db).2 =
          Except.error (WebappErr.invalidVisibility
            ("Cluster " ++ cn ++ " does not have Gateway API available. "
              ++ "Visibility public or private requires Gateway API support."))) ∧
    (∀ w dto cn cid fu del db w2 ec,
        update_webapp_fields w dto = Except.ok (w2, ec) →
        (update_webapp w dto cn cid fu (fun s => Except.ok s) del db).2.1 =
          Except.ok w2) := by
  refine ⟨?_, ?_, ?_⟩
  · intro dto caps cn cid nid fu up db h1 htype hcaps
    unfold create_webapp
    rw [h1]
    have h2 : validate_exposure_settings caps cn dto.settings.model_dump =
        Except.error (WebappErr.invalidExposureType
          ("Gateway API is not available in cluster " ++ cn
            ++ ". Exposure type " ++ "http" ++ " requires Gateway API support.")) := by
      simp [validate_exposure_settings, WebappSettingsDto.model_dump,
        validate_exposure_type_for_cluster, required_gateway_resource, htype, hcaps]
    rw [h2]
    exact ⟨rfl, rfl⟩
  · intro dto caps cn cid nid fu up db h1 hreq hvis hcaps
    unfold create_webapp
    rw [h1]
    have h2 : validate_exposure_settings caps cn dto.settings.model_dump =
        Except.error (WebappErr.invalidVisibility
          ("Cluster " ++ cn ++ " does not have Gateway API available. "
            ++ "Visibility public or private requires Gateway API support.")) := by
      simp [validate_exposure_settings, WebappSettingsDto.model_dump,
        validate_exposure_type_for_cluster, hreq,
        validate_visibility_for_cluster, hvis, hcaps]
    rw [h2]
    exact ⟨rfl, rfl⟩
  · intro w dto cn cid fu del db w2 ec hok
    simp only [update_webapp, hok]
    split
    · simp [handle_enabled_change_ok_upsert]
    · split
      · simp [deploy_to_kubernetes]
      · simp

theorem create_validates_cluster_capabilities_witness :
    (create_webapp ⟨"w", some "u", true, ⟨⟨"http", 80, "public"⟩, []⟩⟩
        ⟨false, []⟩ "c" 2 1 5 (fun s => Except.ok s) ⟨⟨[], []⟩, ⟨[], []⟩⟩).1 =
      ⟨⟨[], []⟩, ⟨[], []⟩⟩ ∧
    (create_webapp ⟨"w", some "u", true, ⟨⟨"http", 80, "public"⟩, []⟩⟩
        ⟨false, []⟩ "c" 2 1 5 (fun s => Except.ok s) ⟨⟨[], []⟩, ⟨[], []⟩⟩).2 =
      Except.error (WebappErr.invalidExposureType
        ("Gateway API is not available in cluster " ++ "c"
          ++ ". Exposure type " ++ "http" ++ " requires Gateway API support.")) :=
  create_validates_cluster_capabilities.1
    ⟨"w", some "u", true, ⟨⟨"http", 80, "public"⟩, []⟩⟩
    ⟨false, []⟩ "c" 2 1 5 (fun s => Except.ok s) ⟨⟨[], []⟩, ⟨[], []⟩⟩
    (by decide) rfl rfl

/-- The exposure/URL coupling of the spec: the stored url is non-empty
exactly when the stored exposure reads as http with non-cluster
visibility. -/
def webapp_url_invariant (c : Component) : Prop :=
  url_truthy c.url =
    (exposure_type_of (settings_or_empty c.settings) == "http"
      && exposure_visibility_of (settings_or_empty c.settings) != "cluster")

/-- C4: a successful webapp create yields a component satisfying the
exposure/URL coupling; a successful webapp field update preserves it; a
field update that fails leaves the store untouched and issues no remote
call; and a create whose URL/exposure combination is mismatched fails with
an error while leaving the store untouched. -/
theorem webapp_url_exposure_coupling :
    (∀ dto caps cn cid nid fu up db w,
        (create_webapp dto caps cn cid nid fu up db).2 = Except.ok w →
        webapp_url_invariant w) ∧
    (∀ w dto w2 ec, webapp_url_invariant w →
        update_webapp_fields w dto = Except.ok (w2, ec) →
        webapp_url_invariant w2) ∧
    (∀ w dto e, update_webapp_fields w dto = Except.error e →
        ∀ cn cid fu up del db,
          (update_webapp w dto cn cid fu up del db).1 = db ∧
          (update_webapp w dto cn cid fu up del db).2.2 = []) ∧
    (∀ dto caps cn cid nid fu up db,
        url_truthy dto.url ≠ (dto.settings.exposure.type == "http"
          && dto.settings.exposure.visibility != "cluster") →
        (create_webapp dto caps cn cid nid fu up db).1 = db ∧
        ∃ err, (create_webapp dto caps cn cid nid fu up db).2 = Except.error err) := by
  refine ⟨?_, ?_, ?_, ?_⟩
  · intro dto caps cn cid nid fu up db w h
    unfold create_webapp at h
    cases h1 : validate_webapp_create_dto dto with
    | error e => rw [h1] at h; simp at h
    | ok u =>
        cases u
        rw [h1] at h
        cases h2 : validate_exposure_settings caps cn dto.settings.model_dump with
        | error e => rw [h2] at h; simp at h
        | ok u2 =>
            cases u2
            rw [h2] at h
            cases h3 : validate_url_for_exposure dto.url dto.settings.exposure.type
                dto.settings.exposure.visibility with
            | error e => rw [h3] at h; simp at h
            | ok u3 =>
                cases u3
                rw [h3] at h
                simp only [] at h
                split at h
                · simp only [Except.ok.injEq] at h
                  rw [← h]
                  unfold validate_url_for_exposure at h3
                  by_cases hc : (dto.settings.exposure.type == "http"
                      && dto.settings.exposure.visibility != "cluster") = true
                  · have ht : url_truthy dto.url = true := by
                      cases hu : url_truthy dto.url with
                      | true => rfl
                      | false => simp [hc, hu] at h3
                    simp [webapp_url_invariant, build_webapp_entity,
                      exposure_type_of_dump, exposure_visibility_of_dump,
                      settings_or_empty, hc, ht]
                  · have hc2 : (dto.settings.exposure.type == "http"
                        && dto.settings.exposure.visibility != "cluster") = false := by
                      simpa using hc
                    simp [webapp_url_invariant, build_webapp_entity,
                      exposure_type_of_dump, exposure_visibility_of_dump,
                      settings_or_empty, hc2, url_truthy]
                · simp at h
  · intro w dto w2 ec hinv hok
    have hfs := update_webapp_fields_full_spec w dto w2 ec hok
    obtain ⟨-, -, -, -, -, hsettings, hurl, hguard⟩ := hfs
    unfold webapp_url_invariant at hinv ⊢
    cases hs : dto.settings with
    | none =>
        rw [hs] at hsettings hurl
        rw [hsettings, hurl]
        exact hinv
    | some sd =>
        rw [hs] at hsettings hurl
        rw [hsettings] at hguard ⊢
        simp only [exposure_type_of_dump, exposure_visibility_of_dump,
          settings_or_empty, Option.getD_some] at hguard ⊢
        cases hA : (sd.exposure.type == "http") <;>
        cases hB : (sd.exposure.visibility == "cluster") <;>
        simp only [hA, hB, bne, exposure_type_of_dump, exposure_visibility_of_dump,
          Bool.not_true, Bool.not_false, Bool.false_or, Bool.true_or,
          Bool.or_false, Bool.or_true, Bool.true_and, Bool.false_and,
          Bool.and_true, Bool.and_false, if_true, if_false] at hurl hguard ⊢ <;>
        simp_all [url_truthy]
  · intro w dto e herr cn cid fu up del db
    simp [update_webapp, herr]
  · intro dto caps cn cid nid fu up db hmm
    unfold create_webapp
    cases h1 : validate_webapp_create_dto dto with
    | error e => exact ⟨rfl, e, rfl⟩
    | ok u =>
        cases u
        cases h2 : validate_exposure_settings caps cn dto.settings.model_dump with
        | error e => exact ⟨rfl, e, rfl⟩
        | ok u2 =>
            cases u2
            cases hA : (dto.settings.exposure.type == "http") <;>
            cases hB : (dto.settings.exposure.visibility == "cluster") <;>
            cases hU : url_truthy dto.url <;>
            simp_all [validate_url_for_exposure, bne]

theorem webapp_url_exposure_coupling_witness :
    webapp_url_invariant ⟨1, "w", ComponentType.webapp,
      some ⟨some ⟨"http", 80, some "public"⟩, []⟩, some "u", true⟩ ∧
    (create_webapp ⟨"w", some "u", true, ⟨⟨"tcp", 80, "public"⟩, []⟩⟩
        ⟨true, ["HTTPRoute", "TCPRoute"]⟩ "c" 2 1 5 (fun s => Except.ok s)
        ⟨⟨[], []⟩, ⟨[], []⟩⟩).1 = ⟨⟨[], []⟩, ⟨[], []⟩⟩ :=
  ⟨webapp_url_exposure_coupling.1
      ⟨"w", some "u", true, ⟨⟨"http", 80, "public"⟩, []⟩⟩
      ⟨true, ["HTTPRoute"]⟩ "c" 2 1 5 (fun s => Except.ok s) ⟨⟨[], []⟩, ⟨[], []⟩⟩
      ⟨1, "w", ComponentType.webapp,
        some ⟨some ⟨"http", 80, some "public"⟩, []⟩, some "u", true⟩ (by decide),
   (webapp_url_exposure_coupling.2.2.2
      ⟨"w", some "u", true, ⟨⟨"tcp", 80, "public"⟩, []⟩⟩
      ⟨true, ["HTTPRoute", "TCPRoute"]⟩ "c" 2 1 5 (fun s => Except.ok s)
      ⟨⟨[], []⟩, ⟨[], []⟩⟩ (by decide)).1⟩

/-- C10 counterexample: a webapp update payload that carries a url but no
settings is accepted, yet the stored url keeps its old value — the url in
the payload is applied only inside the settings branch of
`_update_webapp_fields`, so it is silently ignored here. -/
theorem webapp_update_ignores_url_without_settings :
    webapp_update_dto_valid ⟨some "new", none, none⟩ = true ∧
    update_webapp_fields
        ⟨1, "w", ComponentType.webapp,
          some ⟨some ⟨"http", 80, some "public"⟩, []⟩, some "old", true⟩
        ⟨some "new", none, none⟩ =
      Except.ok (⟨1, "w", ComponentType.webapp,
          some ⟨some ⟨"http", 80, some "public"⟩, []⟩, some "old", true⟩,
        ⟨false, true, true⟩) ∧
    (some "old" : Option String) ≠ some "new" := by
  refine ⟨by decide, by decide, by decide⟩

/-- C10 (amended): an update applies exactly the fields present in the
payload and leaves absent fields unchanged — except that a webapp url in
the payload takes effect only when settings are also present: with settings
absent, both settings and url are untouched; with settings present, the
settings are replaced and the url follows the exposure coupling (cleared
for non-http or cluster exposure, else taken from the payload when present,
else kept); enabled follows the payload exactly; worker/cron updates apply
settings and enabled the same way and never touch the url. -/
theorem update_applies_only_present_fields :
    (∀ w dto w2 ec, update_webapp_fields w dto = Except.ok (w2, ec) →
        dto.settings = none →
        w2.settings = w.settings ∧ w2.url = w.url ∧ w2.id = w.id ∧ w2.name = w.name) ∧
    (∀ w dto sd w2 ec, update_webapp_fields w dto = Except.ok (w2, ec) →
        dto.settings = some sd →
        w2.settings = some sd.model_dump ∧
        w2.url = (if exposure_type_of sd.model_dump != "http"
              || exposure_visibility_of sd.model_dump == "cluster" then none
          else
            match dto.url with
            | some u => some u
            | none => w.url)) ∧
    (∀ w dto w2 ec, update_webapp_fields w dto = Except.ok (w2, ec) →
        w2.enabled = (match dto.enabled with
                      | none => w.enabled
                      | some b => b)) ∧
    (∀ w dto, (update_worker_fields w dto).1.settings =
        (match dto.settings with
         | none => w.settings
         | some s => some s) ∧
      (update_worker_fields w dto).1.enabled =
        (match dto.enabled with
         | none => w.enabled
         | some b => b) ∧
      (update_worker_fields w dto).1.url = w.url) := by
  refine ⟨?_, ?_, ?_, ?_⟩
  · intro w dto w2 ec hok hs
    have hfs := update_webapp_fields_full_spec w dto w2 ec hok
    obtain ⟨hid, hname, -, -, -, hsettings, hurl, -⟩ := hfs
    rw [hs] at hsettings hurl
    exact ⟨hsettings, hurl, hid, hname⟩
  · intro w dto sd w2 ec hok hs
    have hfs := update_webapp_fields_full_spec w dto w2 ec hok
    obtain ⟨-, -, -, -, -, hsettings, hurl, -⟩ := hfs
    rw [hs] at hsettings hurl
    exact ⟨hsettings, hurl⟩
  · intro w dto w2 ec hok
    exact (update_webapp_fields_full_spec w dto w2 ec hok).2.2.2.1
  · intro w dto
    cases hs : dto.settings <;> cases he : dto.enabled <;>
      simp [update_worker_fields, update_component_enabled_field, hs, he]

theorem update_applies_only_present_fields_witness :
    ((⟨1, "w", ComponentType.webapp,
        some ⟨some ⟨"http", 80, some "public"⟩, []⟩, some "old", true⟩ : Component).settings =
      (⟨1, "w", ComponentType.webapp,
        some ⟨some ⟨"http", 80, some "public"⟩, []⟩, some "old", true⟩ : Component).settings) ∧
    (update_worker_fields
        ⟨1, "w", ComponentType.worker, some ⟨none, [("cpu", "1")]⟩, none, true⟩
        ⟨some false, none⟩).1.enabled =
      (match (some false : Option Bool) with
       | none => true
       | some b => b) :=
  ⟨(update_applies_only_present_fields.1
      ⟨1, "w", ComponentType.webapp,
        some ⟨some ⟨"http", 80, some "public"⟩, []⟩, some "old", true⟩
      ⟨some "new", none, none⟩
      ⟨1, "w", ComponentType.webapp,
        some ⟨some ⟨"http", 80, some "public"⟩, []⟩, some "old", true⟩
      ⟨false, true, true⟩ (by decide) rfl).1,
   (update_applies_only_present_fields.2.2.2
      ⟨1, "w", ComponentType.worker, some ⟨none, [("cpu", "1")]⟩, none, true⟩
      ⟨some false, none⟩).2.1⟩

end Tron
